import Mathlib

/-!
Verification development for the BioAcoustic-Dashboard audio-processing
pipeline.  The Python sources under `lib/audio_processing/` are shallowly
embedded below:

* `file_manager.py`   — time-value parsing (`_parse_time_value`), detection
  validation (`validate_file_paths`), storage path conversions
  (`get_relative_path` / `resolve_relative_path`);
* `segment_generator.py` — context-window computation
  (`_extract_segment_librosa`), artifact file naming (`_generate_filename`),
  overwrite/unique-name fallback;
* `spectrogram_generator.py` — artifact file naming (`_generate_filename`);
* `processing_manager.py` — per-item processing
  (`_process_single_detection`), bulk processing
  (`process_all_pending_detections`), record-store update
  (`_update_detection_paths`).

Python strings are modelled as `List Char` (each `Char` one Unicode code
point, exactly Python's string model); Python numbers as `Rat` (decimal
inputs appearing in the claims are exactly representable); fallible code
returns `Option`.  Effectful subroutines (filesystem probes, audio decoding,
the SQLite store) are modelled by explicit parameters and state passing: the
record store is a list of rows, and the outcome of audio/spectrogram
rendering for an item is an explicit input describing the environment.
-/

/-! ### Basic Python string primitives (on `List Char`) -/

/-- The whitespace characters removed by Python's `str.strip()` (restricted
to the ASCII whitespace set; the inputs in this code base are ASCII). -/
def pySpace (c : Char) : Bool :=
  c = ' ' || c = '\t' || c = '\n' || c = '\r' || c = '\x0b' || c = '\x0c'

/-- Python `str.strip()`. -/
def pyStrip (l : List Char) : List Char :=
  ((l.dropWhile pySpace).reverse.dropWhile pySpace).reverse

/-- Python `str.split(sep)` for a single-character separator: splits at every
occurrence, keeping empty chunks (`"".split(c) == [""]`). -/
def splitOnChar (sep : Char) : List Char → List (List Char)
  | [] => [[]]
  | c :: rest =>
    match splitOnChar sep rest with
    | [] => [[]]
    | h :: t => if c = sep then [] :: h :: t else (c :: h) :: t

/-- Python `str.replace(old, "")` for a single-character `old`: removes every
occurrence of the character. -/
def removeChar (x : Char) (l : List Char) : List Char :=
  l.filter (fun c => c ≠ x)

/-- Python `c in s` membership test for a single character. -/
def containsChar (x : Char) (l : List Char) : Bool :=
  l.any (fun c => c = x)

/-- ASCII decimal digit run: `some` of its value when the chunk is nonempty
and all digits, else `none`. -/
def digitsVal (l : List Char) : Option Nat :=
  if l ≠ [] && l.all Char.isDigit then
    some (l.foldl (fun a c => a * 10 + (c.toNat - 48)) 0)
  else none

/-- Python `int(str)`: strips whitespace, accepts an optional sign followed
by a nonempty digit run.  (Underscore digit separators, accepted by Python,
are omitted: no input in this code base uses them.) -/
def pyParseInt (l : List Char) : Option Int :=
  match pyStrip l with
  | '-' :: rest => (digitsVal rest).map (fun n => -(n : Int))
  | '+' :: rest => (digitsVal rest).map (fun n => (n : Int))
  | rest => (digitsVal rest).map (fun n => (n : Int))

/-- Discrete decomposition of a Python `float(str)` literal: sign, integer
part, fraction value, number of fraction digits, exponent.  The input is
assumed already stripped and lower-cased.  Grammar (as accepted by Python,
with the `inf`/`nan`/underscore forms omitted — unused in this code base):
`[sign] (digits [. digits?] | . digits) [e [sign] digits]`. -/
def pyFloatMantissa (l : List Char) : Option (Nat × Nat × Nat) :=
  match splitOnChar '.' l with
  | [d] => (digitsVal d).map (fun n => (n, 0, 0))
  | [i, f] =>
    if i = [] && f = [] then none
    else if i.all Char.isDigit && f.all Char.isDigit then
      some (((digitsVal i).getD 0, (digitsVal f).getD 0, f.length))
    else none
  | _ => none

/-- Sign-and-exponent layer of the Python `float(str)` grammar; see
`pyFloatMantissa`. -/
def pyFloatParts (l : List Char) : Option (Bool × Nat × Nat × Nat × Int) :=
  let withSign : Bool × List Char :=
    match l with
    | '-' :: rest => (true, rest)
    | '+' :: rest => (false, rest)
    | rest => (false, rest)
  match splitOnChar 'e' (withSign.2.map Char.toLower) with
  | [m] => (pyFloatMantissa m).map (fun p => (withSign.1, p.1, p.2.1, p.2.2, (0 : Int)))
  | [m, ex] =>
    match pyFloatMantissa m, pyParseInt ex with
    | some p, some e => some (withSign.1, p.1, p.2.1, p.2.2, e)
    | _, _ => none
  | _ => none

/-- Numeric value of a decomposed float literal. -/
def floatPartsVal (p : Bool × Nat × Nat × Nat × Int) : Rat :=
  (if p.1 then (-1 : Rat) else 1) *
    ((p.2.1 : Rat) + (p.2.2.1 : Rat) / 10 ^ p.2.2.2.1) * 10 ^ p.2.2.2.2

/-- Python `float(str)` (stripped input), as an exact rational. -/
def pyParseFloat (l : List Char) : Option Rat :=
  (pyFloatParts (pyStrip l)).map floatPartsVal

/-! ### `file_manager._parse_time_value` -/

/-- A Python time value as stored in the detection record: already numeric
(`int`/`float`) or text. -/
inductive TimeValue where
  | num (q : Rat)
  | txt (s : List Char)
deriving DecidableEq

/-- Pattern 1 of `_parse_time_value`: the `"<int>m<int>s"` form.  Guarded by
`'m' in s and 's' in s`; removes every `'s'`, splits on `'m'`, and when that
yields exactly two `int()`-parsable chunks returns `minutes * 60 + seconds`
(a Python `int`). -/
def tryMinSec (t : List Char) : Option Int :=
  if containsChar 'm' t && containsChar 's' t then
    match splitOnChar 'm' (removeChar 's' t) with
    | [p0, p1] =>
      match pyParseInt p0, pyParseInt p1 with
      | some m, some s => some (m * 60 + s)
      | _, _ => none
    | _ => none
  else none

/-- Pattern 3 of `_parse_time_value`: the `"<int>:<int>"` form.  Guarded by
`':' in s`; splits on `':'` and when that yields exactly two `int()`-parsable
chunks returns `minutes * 60 + seconds`. -/
def tryColon (t : List Char) : Option Int :=
  if containsChar ':' t then
    match splitOnChar ':' t with
    | [p0, p1] =>
      match pyParseInt p0, pyParseInt p1 with
      | some m, some s => some (m * 60 + s)
      | _, _ => none
    | _ => none
  else none

/-- `file_manager._parse_time_value`: numeric input is returned unchanged
(as a float); text is stripped and then the three patterns are attempted in
order — `"<int>m<int>s"`, direct `float()`, `"<int>:<int>"`; `none` models
the `ValueError` raised when none of them matches. -/
def parse_time_value (v : TimeValue) : Option Rat :=
  match v with
  | .num q => some q
  | .txt s =>
    let t := pyStrip s
    match tryMinSec t with
    | some n => some (n : Rat)
    | none =>
      match pyParseFloat t with
      | some q => some q
      | none => (tryColon t).map (fun n => (n : Rat))

/-! ### `segment_generator` context window -/

/-- `AudioSegmentGenerator.context_seconds`: fixed 5-second padding. -/
def context_seconds : Rat := 5

/-- The slice computed by `_extract_segment_librosa`:
`segment_start = max(0, start_time - context_seconds)` and
`segment_duration = (end_time + context_seconds) - segment_start`.  The
source duration is not an input: the upper bound is not clamped there
(decoding truncates naturally at end of file). -/
def extract_segment_window (start_time end_time : Rat) : Rat × Rat :=
  let segment_start := max 0 (start_time - context_seconds)
  let segment_duration := (end_time + context_seconds) - segment_start
  (segment_start, segment_duration)

/-! ### Artifact file naming (`_generate_filename` in both generators) -/

/-- Python's Unicode-aware `str.isalnum()`, restricted to the alphabets this
repository's species names draw from: ASCII letters and digits, Japanese
hiragana and katakana (including the prolonged sound mark U+30FC, category
Lm), and CJK unified ideographs.  Every character class listed is alnum in
Python. -/
def pyIsAlnum (c : Char) : Bool :=
  c.isAlpha || c.isDigit ||
  (0x3041 ≤ c.toNat && c.toNat ≤ 0x3096) ||
  (0x30A1 ≤ c.toNat && c.toNat ≤ 0x30FA) ||
  (0x30FC ≤ c.toNat && c.toNat ≤ 0x30FF) ||
  (0x4E00 ≤ c.toNat && c.toNat ≤ 0x9FFF)

/-- The species sanitization shared (textually) by both generators:
`"".join(c for c in species_name if c.isalnum() or c in "ー_-")`. -/
def sanitizeSpecies (species : List Char) : List Char :=
  species.filter (fun c => pyIsAlnum c || c = 'ー' || c = '_' || c = '-')

/-- Python `f"{id:03d}"` for a nonnegative id: decimal digits left-padded
with zeros to width 3. -/
def format03d (n : Nat) : List Char :=
  let ds := (Nat.toDigits 10 n)
  (List.replicate (3 - ds.length) '0') ++ ds

/-- Round-half-even of a rational, the rounding Python's fixed-point float
formatting performs (decimal values are modelled exactly; none of the
concrete confidences in the claims is a tie). -/
def roundHalfEven (q : Rat) : Int :=
  let f : Int := ⌊q⌋
  if q - f < 1/2 then f
  else if (1 : Rat)/2 < q - f then f + 1
  else if f % 2 = 0 then f else f + 1

/-- Digit rendering of a nonnegative scaled value `n` (hundredths) as
`"<int>.<2-digit cents>"`. -/
def centsRender (n : Nat) : List Char :=
  let ip := Nat.toDigits 10 (n / 100)
  let cs := Nat.toDigits 10 (n % 100)
  ip ++ '.' :: (List.replicate (2 - cs.length) '0') ++ cs

/-- Python `f"{confidence:.2f}"`. -/
def format2f (q : Rat) : List Char :=
  let n := roundHalfEven (q * 100)
  if n < 0 then '-' :: centsRender (-n).toNat else centsRender n.toNat

/-- `AudioSegmentGenerator._generate_filename`:
`f"detection_{detection_id:03d}_{safe_species}_{confidence:.2f}.wav"`. -/
def segGenFilename (detection_id : Nat) (species : List Char) (confidence : Rat) :
    List Char :=
  ('d' :: 'e' :: 't' :: 'e' :: 'c' :: 't' :: 'i' :: 'o' :: 'n' :: '_' :: format03d detection_id) ++
    ('_' :: sanitizeSpecies species) ++ ('_' :: format2f confidence) ++ ".wav".data

/-- `SpectrogramGenerator._generate_filename`: same stem, `.png` extension. -/
def specGenFilename (detection_id : Nat) (species : List Char) (confidence : Rat) :
    List Char :=
  ('d' :: 'e' :: 't' :: 'e' :: 'c' :: 't' :: 'i' :: 'o' :: 'n' :: '_' :: format03d detection_id) ++
    ('_' :: sanitizeSpecies species) ++ ('_' :: format2f confidence) ++ ".png".data

/-- The common stem of the two generated filenames. -/
def detectionStem (detection_id : Nat) (species : List Char) (confidence : Rat) :
    List Char :=
  ('d' :: 'e' :: 't' :: 'e' :: 'c' :: 't' :: 'i' :: 'o' :: 'n' :: '_' :: format03d detection_id) ++
    ('_' :: sanitizeSpecies species) ++ ('_' :: format2f confidence)

/-! ### `file_manager` storage path conversions

A filesystem path is modelled as its list of components (each component a
`List Char`).  The deployment platform of this code base is Windows
(`get_relative_path` post-processes `str(rel_path)` with
`.replace("\\", "/")` and `resolve_relative_path` converts back with
`.replace("/", os.sep)`), so `os.sep` is the backslash and path components
contain neither separator character. -/

/-- Rendering of a component path as a string, joining with a separator
(Python `str(Path(...))`). -/
def joinComps (sep : Char) : List (List Char) → List Char
  | [] => []
  | [c] => c
  | c :: rest => c ++ sep :: joinComps sep rest

/-- Single-character `str.replace` (total replacement). -/
def replaceChar (old new : Char) (l : List Char) : List Char :=
  l.map (fun c => if c = old then new else c)

/-- Python `sep.join(chunks)` for a general separator string. -/
def joinSep (sep : List Char) : List (List Char) → List Char
  | [] => []
  | [c] => c
  | c :: rest => c ++ sep ++ joinSep sep rest

/-- `Path.relative_to(base)`: strips `base` when it is a component-prefix,
else raises `ValueError` (`none`). -/
def relativeTo (base p : List (List Char)) : Option (List (List Char)) :=
  if base.isPrefixOf p then some (p.drop base.length) else none

/-- `file_manager.get_relative_path`: renders the path relative to the
configured `database` directory with forward slashes; a path outside the
root falls back to the absolute rendering, also slash-normalized. -/
def get_relative_path (databaseDir absPath : List (List Char)) : List Char :=
  match relativeTo databaseDir absPath with
  | some rest => replaceChar '\\' '/' (joinComps '\\' rest)
  | none => replaceChar '\\' '/' (joinComps '\\' absPath)

/-- `file_manager.resolve_relative_path`: replaces `/` by `os.sep` and joins
the result onto the `database` directory. -/
def resolve_relative_path (databaseDir : List (List Char)) (relPath : List Char) :
    List Char :=
  let normalized := replaceChar '/' '\\' relPath
  joinComps '\\' databaseDir ++ '\\' :: normalized

/-! ### `file_manager.validate_file_paths` -/

/-- A row of the `bird_detections` table as handed to the processing
manager (a `dict` from `sqlite3.Row`): `none` models SQL NULL. -/
structure Detection where
  id : Int
  filename : Option (List Char)
  session_name : Option (List Char)
  start_time_seconds : Option TimeValue
  end_time_seconds : Option TimeValue
  common_name : Option (List Char)
  confidence : Rat
deriving DecidableEq

/-- The required-field loop of `validate_file_paths`: one error per field
that is absent or NULL, in source order. -/
def requiredFieldErrors (d : Detection) : List (List Char) :=
  (if d.filename.isNone then ["必須フィールドが不足: filename".data] else []) ++
  (if d.session_name.isNone then ["必須フィールドが不足: session_name".data] else []) ++
  (if d.start_time_seconds.isNone then ["必須フィールドが不足: start_time_seconds".data] else []) ++
  (if d.end_time_seconds.isNone then ["必須フィールドが不足: end_time_seconds".data] else [])

/-- The time-range block of `validate_file_paths`: parses both bounds inside
one `try`; a parse failure yields the single conversion error, otherwise the
negative-start and the ordering violations accumulate independently. -/
def timeRangeErrors (d : Detection) : List (List Char) :=
  match parse_time_value (d.start_time_seconds.getD (.num 0)) with
  | none => ["時刻変換エラー".data]
  | some st =>
    match parse_time_value (d.end_time_seconds.getD (.num 0)) with
    | none => ["時刻変換エラー".data]
    | some en =>
      (if st < 0 then ["開始時刻が負の値です".data] else []) ++
      (if en ≤ st then ["終了時刻が開始時刻以前です".data] else [])

/-- `file_manager.validate_file_paths`.  `findSource` abstracts
`find_source_audio_file` (a filesystem probe): `none` when no source audio
with that stem exists.  Mirrors the control flow of the source: when any
required field is missing the function returns those errors at once and the
remaining checks are skipped; otherwise the source-file, time-range and
session-name errors accumulate into one list, and the verdict is emptiness
of that list. -/
def validate_file_paths (findSource : List Char → Option (List Char))
    (d : Detection) : Bool × List (List Char) :=
  let req := requiredFieldErrors d
  if req ≠ [] then (false, req)
  else
    let srcErrs :=
      match findSource (d.filename.getD []) with
      | none => [("元音声ファイルが見つかりません: ".data ++ d.filename.getD [])]
      | some _ => []
    let sessErrs :=
      if pyStrip (d.session_name.getD []) = [] then ["セッション名が空です".data] else []
    let errors := srcErrs ++ timeRangeErrors d ++ sessErrs
    (errors.isEmpty, errors)

/-! ### `segment_generator` output naming and overwrite fallback -/

/-- The overwrite logic of `_extract_segment_librosa` around the requested
output name (`<stem>.wav`): when a file of that name already exists it is
unlinked and rewritten in place; when the unlink raises `PermissionError`
(exclusive lock) the write goes to `<stem>_<timestamp>.wav` instead.
`targetExists` and `unlinkLocked` describe the filesystem environment;
`timestamp` is `int(time.time())`. -/
def extractActualName (stem : List Char) (targetExists unlinkLocked : Bool)
    (timestamp : Nat) : List Char :=
  if targetExists && unlinkLocked then
    stem ++ '_' :: (Nat.toDigits 10 timestamp) ++ ".wav".data
  else
    stem ++ ".wav".data

/-- `generate_segment` around the extraction call: on success the relative
path handed back (and later persisted) is built from
`actual_output_path.name` — the name actually written — under
`audio_segments/<session>/`.  `writeOk` abstracts the librosa decode and
`sf.write` succeeding. -/
def generate_segment_path (session stem : List Char)
    (targetExists unlinkLocked writeOk : Bool) (timestamp : Nat) :
    Bool × List Char :=
  let actual := extractActualName stem targetExists unlinkLocked timestamp
  if writeOk then
    (true, "audio_segments/".data ++ session ++ '/' :: actual)
  else (false, [])

/-! ### `processing_manager` -/

/-- The two artifact-path columns of a `bird_detections` row, keyed by id. -/
structure DBRow where
  id : Int
  audio_segment_path : Option (List Char)
  spectrogram_path : Option (List Char)
deriving DecidableEq

/-- `ProcessingManager._update_detection_paths`: a single `UPDATE` of both
path columns keyed by detection id.  Returns the updated store and the
`cursor.rowcount > 0` verdict the source bases success on. -/
def update_detection_paths (db : List DBRow) (detection_id : Int)
    (audio_path spectrogram_path : Option (List Char)) : List DBRow × Bool :=
  let updated := db.map (fun r =>
    if r.id = detection_id then
      { r with audio_segment_path := audio_path, spectrogram_path := spectrogram_path }
    else r)
  (updated, decide (0 < (db.filter (fun r => r.id = detection_id)).length))

/-- The running statistics dictionary `self.stats`. -/
structure Stats where
  processed_count : Nat
  success_count : Nat
  audio_success : Nat
  spectrogram_success : Nat
  error_count : Nat
  errors : List (List Char)
deriving DecidableEq

/-- Fresh statistics, as set by `__init__` / `reset_processing_stats`. -/
def initStats : Stats :=
  { processed_count := 0, success_count := 0, audio_success := 0,
    spectrogram_success := 0, error_count := 0, errors := [] }

/-- Appending one error: `error_count += 1; errors.append(msg)`. -/
def recordError (st : Stats) (msg : List Char) : Stats :=
  { st with error_count := st.error_count + 1, errors := st.errors ++ [msg] }

/-- Result of one generator call `(success, relative_path, error)`; both
generators catch their own exceptions and return this triple. -/
structure GenOutcome where
  success : Bool
  rel_path : List Char
deriving DecidableEq

/-- The effectful environment of one `_process_single_detection` call:
the audio-generator outcome, the spectrogram-generator outcome, and
`raiseMsg`, which models an unexpected exception escaping the body (caught
by the method's outer `except` handler). -/
structure ItemEffects where
  segGen : GenOutcome
  specGen : GenOutcome
  raiseMsg : Option (List Char)
deriving DecidableEq

/-- Rendering of the id for the error/log messages (`f"(ID:{id})"`). -/
def idTag (i : Int) : List Char :=
  "(ID:".data ++ (toString i).data ++ ")".data

/-- `ProcessingManager._process_single_detection`.  State passed through:
the record store `db` and the statistics `stats`.  Mirrors the source
control flow: increment `processed_count`; catch any unexpected exception as
a処理実行エラー item error; validation failure and missing source are item
errors; the audio generator runs; the spectrogram generator runs only when
enabled and the audio succeeded; both path columns are then updated in one
call, and the item succeeds exactly when that update matched a row and the
audio generation succeeded.  (The session directory name passed to the
generators is absorbed into the effect outcomes.) -/
def process_single_detection (enableSpec : Bool)
    (findSource : List Char → Option (List Char)) (eff : ItemEffects)
    (d : Detection) (db : List DBRow) (stats : Stats) :
    (Bool × List Char) × List DBRow × Stats :=
  let stats := { stats with processed_count := stats.processed_count + 1 }
  match eff.raiseMsg with
  | some m =>
    let msg := "処理実行エラー ".data ++ idTag d.id ++ ": ".data ++ m
    ((false, msg), db, recordError stats msg)
  | none =>
    let v := validate_file_paths findSource d
    if v.1 = false then
      let msg := "検証エラー ".data ++ idTag d.id ++ ": ".data ++
        joinSep "; ".data v.2
      ((false, msg), db, recordError stats msg)
    else
      match findSource (d.filename.getD []) with
      | none =>
        let msg := "元音声ファイル未発見 ".data ++ idTag d.id ++ ": ".data ++
          d.filename.getD []
        ((false, msg), db, recordError stats msg)
      | some _ =>
        let audio := eff.segGen
        let audio_path : Option (List Char) :=
          if audio.success then some audio.rel_path else none
        let stats :=
          if audio.success then { stats with audio_success := stats.audio_success + 1 }
          else stats
        let specTaken := enableSpec && audio.success && eff.specGen.success
        let spectrogram_path : Option (List Char) :=
          if specTaken then some eff.specGen.rel_path else none
        let stats :=
          if specTaken then
            { stats with spectrogram_success := stats.spectrogram_success + 1 }
          else stats
        let upd := update_detection_paths db d.id audio_path spectrogram_path
        if upd.2 then
          if audio.success then
            ((true, "処理完了 ".data ++ idTag d.id), upd.1,
              { stats with success_count := stats.success_count + 1 })
          else
            let msg := "音声セグメント生成失敗 ".data ++ idTag d.id
            ((false, msg), upd.1, recordError stats msg)
        else
          let msg := "データベース更新失敗 ".data ++ idTag d.id
          ((false, msg), upd.1, recordError stats msg)

/-- `ProcessingManager.process_all_pending_detections`: every pending
detection is processed in order by `_process_single_detection`; the chunking
into batches of `batch_size` only drives progress logging, so the run is the
left fold of the per-item step over the pending list. -/
def process_all_pending_detections (enableSpec : Bool)
    (findSource : List Char → Option (List Char))
    (items : List (Detection × ItemEffects)) (db : List DBRow) (stats : Stats) :
    List DBRow × Stats :=
  items.foldl
    (fun acc it =>
      let r := process_single_detection enableSpec findSource it.2 it.1 acc.1 acc.2
      (r.2.1, r.2.2))
    (db, stats)

/-- An item of a bulk run that completes as an audio success: no unexpected
exception, validation passes, the source file is found, and the audio
generator succeeds. -/
def GoodItem (findSource : List Char → Option (List Char))
    (it : Detection × ItemEffects) : Prop :=
  it.2.raiseMsg = none ∧
  (validate_file_paths findSource it.1).1 = true ∧
  it.2.segGen.success = true

/-- An item whose source audio file is missing: all required fields are
present but `find_source_audio_file` finds nothing, so validation fails. -/
def MissingSourceItem (findSource : List Char → Option (List Char))
    (it : Detection × ItemEffects) : Prop :=
  it.2.raiseMsg = none ∧
  requiredFieldErrors it.1 = [] ∧
  findSource (it.1.filename.getD []) = none

/-- Modelled from the spec (for comparison with the code's sanitizer): the
character set the claim says species sanitization keeps — exactly
`[A-Za-z0-9_-]` plus the long-vowel mark `ー`. -/
def claimKeepChar (c : Char) : Bool :=
  ('A' ≤ c && c ≤ 'Z') || ('a' ≤ c && c ≤ 'z') || ('0' ≤ c && c ≤ '9') ||
    c = '_' || c = '-' || c = 'ー'

/-! ### Theorems -/

/-- Claim C4: the extractor decodes the slice beginning at
`segmentStart = max(0, startSeconds - 5)` with duration
`(endSeconds + 5) - segmentStart`, so the covered interval always ends at
`endSeconds + 5` (no upper clamp — the source duration is not consulted)
while the lower bound is clamped at zero; for the window `[100, 102]` the
extracted segment is `[95, 107]`. -/
theorem extraction_window_padding :
    (∀ start_time end_time : Rat,
      (extract_segment_window start_time end_time).1 = max 0 (start_time - 5) ∧
      0 ≤ (extract_segment_window start_time end_time).1 ∧
      (extract_segment_window start_time end_time).1 +
        (extract_segment_window start_time end_time).2 = end_time + 5) ∧
    extract_segment_window 100 102 = (95, 12) ∧
    (95 : Rat) + 12 = 107 := by
  refine ⟨fun st en => ⟨rfl, le_max_left 0 _, ?_⟩, ?_, by norm_num⟩
  · simp only [extract_segment_window, context_seconds]
    ring
  · simp only [extract_segment_window, context_seconds, Prod.mk.injEq]
    constructor
    · rw [max_eq_right] <;> norm_num
    · rw [max_eq_right] <;> norm_num

/-- Claim C3: the time parser maps numeric input to itself; the four
encodings `"626.0"`, `"10m26s"`, `"10:26"` and the number `626.0` all parse
to the canonical 626.0; for text the `<int>m<int>s` pattern is tried first,
then a direct float parse, then the `<int>:<int>` pattern; and the parse
fails (the `ValueError` case) exactly when all three fail. -/
theorem time_parser_equivalence :
    (∀ q : Rat, parse_time_value (.num q) = some q) ∧
    parse_time_value (.num 626) = some 626 ∧
    parse_time_value (.txt "626.0".data) = some 626 ∧
    parse_time_value (.txt "10m26s".data) = some 626 ∧
    parse_time_value (.txt "10:26".data) = some 626 ∧
    (∀ s : List Char,
      parse_time_value (.txt s) =
        match tryMinSec (pyStrip s) with
        | some n => some (n : Rat)
        | none =>
          match pyParseFloat (pyStrip s) with
          | some q => some q
          | none => (tryColon (pyStrip s)).map (fun n => (n : Rat))) ∧
    (∀ s : List Char,
      parse_time_value (.txt s) = none ↔
        tryMinSec (pyStrip s) = none ∧ pyParseFloat (pyStrip s) = none ∧
          tryColon (pyStrip s) = none) := by
  refine ⟨fun q => rfl, rfl, ?_, ?_, ?_, fun s => rfl, fun s => ?_⟩
  · have h1 : tryMinSec (pyStrip "626.0".data) = none := by decide
    have h2 : pyFloatParts (pyStrip (pyStrip "626.0".data)) =
        some (false, 626, 0, 1, 0) := by decide
    simp [parse_time_value, pyParseFloat, h1, h2, floatPartsVal]
  · have h1 : tryMinSec (pyStrip "10m26s".data) = some 626 := by decide
    simp [parse_time_value, h1]
  · have h1 : tryMinSec (pyStrip "10:26".data) = none := by decide
    have h2 : pyFloatParts (pyStrip (pyStrip "10:26".data)) = none := by decide
    have h3 : tryColon (pyStrip "10:26".data) = some 626 := by decide
    simp [parse_time_value, pyParseFloat, h1, h2, h3]
  · simp only [parse_time_value]
    cases h1 : tryMinSec (pyStrip s) <;>
      cases h2 : pyParseFloat (pyStrip s) <;>
        cases h3 : tryColon (pyStrip s) <;> simp [h1, h2, h3]

/-- Claim C9: when the target exists and the unlink succeeds the extractor
rewrites in place under the requested name; when the unlink hits a
permission (lock) error it writes to the sibling whose stem carries the unix
timestamp; when the target does not exist the requested name is used; and in
every successful case the relative path handed back to the caller is built
from the name actually written.  The concrete case shows the timestamped
name differs from the requested one. -/
theorem overwrite_fallback_uses_actual_name :
    (∀ (stem : List Char) (ts : Nat),
      extractActualName stem true false ts = stem ++ ".wav".data) ∧
    (∀ (stem : List Char) (locked : Bool) (ts : Nat),
      extractActualName stem false locked ts = stem ++ ".wav".data) ∧
    (∀ (stem : List Char) (ts : Nat),
      extractActualName stem true true ts =
        stem ++ '_' :: Nat.toDigits 10 ts ++ ".wav".data) ∧
    (∀ (session stem : List Char) (tExists locked : Bool) (ts : Nat),
      generate_segment_path session stem tExists locked true ts =
        (true, "audio_segments/".data ++ session ++ '/' ::
          extractActualName stem tExists locked ts)) ∧
    (extractActualName "a".data true true 5 ==
      extractActualName "a".data true false 5) = false := by
  refine ⟨fun stem ts => rfl, fun stem locked ts => ?_, fun stem ts => rfl,
    fun session stem tExists locked ts => rfl, by decide⟩
  simp [extractActualName]

/-- Rewriting every occurrence of a character that appears in none of the
components turns the separator of a joined path into the new character. -/
theorem replaceChar_joinComps (a b : Char) :
    ∀ l : List (List Char), (∀ comp ∈ l, ∀ c ∈ comp, c ≠ a) →
      replaceChar a b (joinComps a l) = joinComps b l := by
  intro l
  induction l with
  | nil => intro _; rfl
  | cons hd tl ih =>
    intro h
    have hhd : replaceChar a b hd = hd := by
      have : List.map (fun c => if c = a then b else c) hd = List.map id hd := by
        apply List.map_congr_left
        intro c hc
        simp [h hd (by simp) c hc]
      simpa [replaceChar] using this
    cases tl with
    | nil => simpa [joinComps] using hhd
    | cons hd2 tl2 =>
      have htl : replaceChar a b (joinComps a (hd2 :: tl2)) = joinComps b (hd2 :: tl2) :=
        ih (fun comp hcomp c hc => h comp (by simp [hcomp]) c hc)
      show replaceChar a b (hd ++ a :: joinComps a (hd2 :: tl2)) =
        hd ++ b :: joinComps b (hd2 :: tl2)
      simp only [replaceChar, List.map_append, List.map_cons] at hhd htl ⊢
      simp [hhd, htl]

/-- Joining distributes over concatenation of nonempty component lists. -/
theorem joinComps_append (sep : Char) :
    ∀ (l1 l2 : List (List Char)), l1 ≠ [] → l2 ≠ [] →
      joinComps sep (l1 ++ l2) = joinComps sep l1 ++ sep :: joinComps sep l2 := by
  intro l1
  induction l1 with
  | nil => intro l2 h1 _; exact absurd rfl h1
  | cons hd tl ih =>
    intro l2 h1 h2
    cases tl with
    | nil =>
      cases l2 with
      | nil => exact absurd rfl h2
      | cons x xs => simp [joinComps]
    | cons hd2 tl2 =>
      have hstep := ih l2 (by simp) h2
      show hd ++ sep :: joinComps sep ((hd2 :: tl2) ++ l2) =
        (hd ++ sep :: joinComps sep (hd2 :: tl2)) ++ sep :: joinComps sep l2
      rw [hstep]
      simp

/-- Claim C10: for every absolute path lying under the configured database
root, converting to the storage-relative form (forward-slash normalized) and
resolving back yields the original absolute path.  Paths are component lists
under Windows path semantics (the platform this code targets, as witnessed
by the `"\\"`/`os.sep` conversions in the source), where a component can
contain neither separator; both conversions are plain functions of the path
and the configured root.  The nonemptiness hypotheses say that the root is a
real directory and the path lies strictly below it. -/
theorem storage_path_roundtrip (base rest : List (List Char))
    (hbase : base ≠ []) (hrest : rest ≠ [])
    (hcomps : ∀ comp ∈ base ++ rest, ∀ c ∈ comp, c ≠ '/' ∧ c ≠ '\\') :
    resolve_relative_path base (get_relative_path base (base ++ rest)) =
      joinComps '\\' (base ++ rest) := by
  have hpre : relativeTo base (base ++ rest) = some rest := by
    simp [relativeTo, List.isPrefixOf_iff_prefix, List.prefix_append, List.drop_left]
  have hrel : get_relative_path base (base ++ rest) = joinComps '/' rest := by
    rw [get_relative_path, hpre]
    apply replaceChar_joinComps
    intro comp hcomp c hc
    exact (hcomps comp (by simp [hcomp]) c hc).2
  rw [hrel, resolve_relative_path]
  have hback : replaceChar '/' '\\' (joinComps '/' rest) = joinComps '\\' rest := by
    apply replaceChar_joinComps
    intro comp hcomp c hc
    exact (hcomps comp (by simp [hcomp]) c hc).1
  rw [hback, joinComps_append '\\' base rest hbase hrest]

/-- Witness for C10 at a concrete root and path. -/
theorem storage_path_roundtrip_witness :
    resolve_relative_path ["database".data]
        (get_relative_path ["database".data]
          (["database".data] ++ ["audio_segments".data, "x.wav".data])) =
      joinComps '\\' (["database".data] ++ ["audio_segments".data, "x.wav".data]) :=
  storage_path_roundtrip ["database".data] ["audio_segments".data, "x.wav".data]
    (by decide) (by decide) (by decide)

/-- Round-half-even agrees with the floor when the fractional part is below
one half. -/
theorem roundHalfEven_eq_floor (q : Rat) (n : Int) (h1 : (n : Rat) ≤ q)
    (h2 : q < (n : Rat) + 1/2) : roundHalfEven q = n := by
  have hf : ⌊q⌋ = n := by
    rw [Int.floor_eq_iff]
    constructor
    · exact h1
    · calc q < (n : Rat) + 1/2 := h2
        _ < (n : Rat) + 1 := by norm_num
  rw [roundHalfEven]
  simp only [hf]
  rw [if_pos]
  linarith

/-- Counterexample to claim C8 as stated: the code's species sanitization is
Python's Unicode-aware `isalnum`, not the ASCII class `[A-Za-z0-9_-]` plus
`ー` the claim describes — the katakana letter `カ` lies outside the claimed
character set yet is kept, not dropped. -/
theorem species_sanitize_counterexample :
    claimKeepChar 'カ' = false ∧ sanitizeSpecies ['カ'] = ['カ'] := by
  constructor <;> decide

/-- Claim C8 (amended): the stem is
`detection_{id zero-padded to 3}_{sanitizedSpecies}_{confidence to 2
decimals}` where sanitization keeps the characters Python's Unicode
`isalnum` accepts plus `ー`, `_`, `-` (on ASCII species names this coincides
with the claimed `[A-Za-z0-9_-]` plus `ー`); id 7, species "Common Cuckoo",
confidence 0.873 yields `detection_007_CommonCuckoo_0.87`, and the audio and
spectrogram generators produce identical stems (differing only in the
`.wav`/`.png` extension). -/
theorem artifact_filename_stems :
    segGenFilename 7 "Common Cuckoo".data (873/1000) =
      "detection_007_CommonCuckoo_0.87.wav".data ∧
    specGenFilename 7 "Common Cuckoo".data (873/1000) =
      "detection_007_CommonCuckoo_0.87.png".data ∧
    (∀ (i : Nat) (species : List Char) (q : Rat),
      segGenFilename i species q = detectionStem i species q ++ ".wav".data ∧
      specGenFilename i species q = detectionStem i species q ++ ".png".data) ∧
    (∀ species : List Char,
      sanitizeSpecies species =
        species.filter (fun c => pyIsAlnum c || c = 'ー' || c = '_' || c = '-')) ∧
    ((List.range 128).all (fun n =>
      (pyIsAlnum (Char.ofNat n) || Char.ofNat n = 'ー' || Char.ofNat n = '_' ||
        Char.ofNat n = '-') == claimKeepChar (Char.ofNat n)) = true) := by
  have h87 : roundHalfEven ((873/1000 : Rat) * 100) = 87 := by
    have hq : (873/1000 : Rat) * 100 = 873/10 := by norm_num
    rw [hq]
    apply roundHalfEven_eq_floor <;> norm_num
  refine ⟨?_, ?_, ?_, fun species => rfl, by decide⟩
  · simp only [segGenFilename, format2f, h87]
    decide
  · simp only [specGenFilename, format2f, h87]
    decide
  · intro i species q
    constructor <;> simp [segGenFilename, specGenFilename, detectionStem]

/-- Counterexample to claim C7 as stated: validation does not always return
the full list of violated rules.  For a record whose `filename` is NULL and
whose session name is blank, two rules are violated (required field,
non-blank session) but the returned list carries only the missing-field
error — the blank-session violation is skipped by the early return. -/
theorem validation_full_list_counterexample :
    (validate_file_paths (fun _ => some "x".data)
        { id := 1, filename := none, session_name := some "   ".data,
          start_time_seconds := some (.num 10), end_time_seconds := some (.num 12),
          common_name := none, confidence := 1 }).2 =
      ["必須フィールドが不足: filename".data] ∧
    pyStrip "   ".data = [] ∧
    "セッション名が空です".data ∉
      (validate_file_paths (fun _ => some "x".data)
        { id := 1, filename := none, session_name := some "   ".data,
          start_time_seconds := some (.num 10), end_time_seconds := some (.num 12),
          common_name := none, confidence := 1 }).2 := by
  refine ⟨by decide, by decide, by decide⟩

/-- Claim C7 (amended): when every required field is present, validation
accumulates all violations — missing source audio, negative parsed start,
end not after start, blank session name — into one returned list (so the
ordering violation and the negative-start violation both appear for a record
violating both), and the verdict is emptiness of that list.  When a required
field is missing, however, only the missing-field errors are returned and
the remaining checks are skipped. -/
theorem validation_accumulates_after_required
    (fs : List Char → Option (List Char)) (d : Detection) (st en : Rat)
    (hreq : requiredFieldErrors d = [])
    (hst : parse_time_value (d.start_time_seconds.getD (.num 0)) = some st)
    (hen : parse_time_value (d.end_time_seconds.getD (.num 0)) = some en) :
    (st < 0 → "開始時刻が負の値です".data ∈ (validate_file_paths fs d).2) ∧
    (en ≤ st → "終了時刻が開始時刻以前です".data ∈ (validate_file_paths fs d).2) ∧
    (fs (d.filename.getD []) = none →
      ("元音声ファイルが見つかりません: ".data ++ d.filename.getD []) ∈
        (validate_file_paths fs d).2) ∧
    (pyStrip (d.session_name.getD []) = [] →
      "セッション名が空です".data ∈ (validate_file_paths fs d).2) ∧
    ((validate_file_paths fs d).1 = true ↔ (validate_file_paths fs d).2 = []) := by
  simp only [validate_file_paths, timeRangeErrors, hreq, hst, hen]
  simp only [ne_eq, not_true_eq_false, if_false, List.mem_append]
  refine ⟨fun h => ?_, fun h => ?_, fun h => ?_, fun h => ?_, ?_⟩
  · simp [h]
  · simp [h]
  · simp [h]
  · simp [h]
  · simp [List.isEmpty_iff]

/-- Witness for C7 (amended) at a record violating both the negative-start
rule and the ordering rule: both messages appear in the returned list. -/
theorem validation_accumulates_witness :
    "開始時刻が負の値です".data ∈
      (validate_file_paths (fun _ => some "x".data)
        { id := 3, filename := some "f".data, session_name := some "sess".data,
          start_time_seconds := some (.num (-2)), end_time_seconds := some (.num (-3)),
          common_name := none, confidence := 1 }).2 ∧
    "終了時刻が開始時刻以前です".data ∈
      (validate_file_paths (fun _ => some "x".data)
        { id := 3, filename := some "f".data, session_name := some "sess".data,
          start_time_seconds := some (.num (-2)), end_time_seconds := some (.num (-3)),
          common_name := none, confidence := 1 }).2 := by
  have h := validation_accumulates_after_required (fun _ => some "x".data)
    { id := 3, filename := some "f".data, session_name := some "sess".data,
      start_time_seconds := some (.num (-2)), end_time_seconds := some (.num (-3)),
      common_name := none, confidence := 1 } (-2) (-3) (by decide) rfl rfl
  exact ⟨h.1 (by norm_num), h.2.1 (by norm_num)⟩

/-- A passing validation implies the source lookup succeeded (validation
itself probes `find_source_audio_file` and records a failure). -/
theorem validate_true_findSource (fs : List Char → Option (List Char))
    (d : Detection) (h : (validate_file_paths fs d).1 = true) :
    ∃ p, fs (d.filename.getD []) = some p := by
  cases hfs : fs (d.filename.getD []) with
  | some p => exact ⟨p, rfl⟩
  | none =>
    exfalso
    by_cases hreq : requiredFieldErrors d = []
    · simp [validate_file_paths, hreq, hfs] at h
    · simp [validate_file_paths, hreq] at h

/-- The update reports success exactly when some row carries the id. -/
theorem update_snd_iff (db : List DBRow) (i : Int) (ap sp : Option (List Char)) :
    (update_detection_paths db i ap sp).2 = true ↔ ∃ r ∈ db, r.id = i := by
  simp only [update_detection_paths, decide_eq_true_eq]
  rw [List.length_pos_iff_exists_mem]
  constructor
  · rintro ⟨r, hr⟩
    rw [List.mem_filter] at hr
    exact ⟨r, hr.1, by simpa using hr.2⟩
  · rintro ⟨r, hr, hid⟩
    exact ⟨r, List.mem_filter.mpr ⟨hr, by simpa using hid⟩⟩

/-- After the update, every row carrying the id holds the written paths. -/
theorem update_sets_row (db : List DBRow) (i : Int) (ap sp : Option (List Char)) :
    ∀ r ∈ (update_detection_paths db i ap sp).1, r.id = i →
      r.audio_segment_path = ap ∧ r.spectrogram_path = sp := by
  intro r hr hid
  simp only [update_detection_paths, List.mem_map] at hr
  obtain ⟨r0, hr0, heq⟩ := hr
  by_cases h0 : r0.id = i
  · rw [if_pos h0] at heq
    rw [← heq]
    exact ⟨rfl, rfl⟩
  · rw [if_neg h0] at heq
    rw [← heq] at hid
    exact absurd hid h0

/-- The update never changes which ids are present. -/
theorem update_preserves_rowExists (db : List DBRow) (i : Int)
    (ap sp : Option (List Char)) (j : Int) :
    (∃ r ∈ (update_detection_paths db i ap sp).1, r.id = j) ↔
      (∃ r ∈ db, r.id = j) := by
  simp only [update_detection_paths, List.mem_map]
  constructor
  · rintro ⟨r, ⟨r0, hr0, heq⟩, hid⟩
    refine ⟨r0, hr0, ?_⟩
    rw [← heq] at hid
    by_cases h0 : r0.id = i
    · rw [if_pos h0] at hid
      exact hid
    · rw [if_neg h0] at hid
      exact hid
  · rintro ⟨r0, hr0, hid⟩
    refine ⟨if r0.id = i then
        { r0 with audio_segment_path := ap, spectrogram_path := sp } else r0,
      ⟨r0, hr0, rfl⟩, ?_⟩
    by_cases h0 : r0.id = i
    · rw [if_pos h0]
      exact hid
    · rw [if_neg h0]
      exact hid

/-- The update leaves every row outside the written id untouched, so a
row-level property attached to another id survives it. -/
theorem update_preserves_prop (db : List DBRow) (i : Int)
    (ap sp : Option (List Char)) (j : Int) (v : Option (List Char)) (hij : i ≠ j)
    (h : ∀ r ∈ db, r.id = j → r.audio_segment_path = v) :
    ∀ r ∈ (update_detection_paths db i ap sp).1, r.id = j →
      r.audio_segment_path = v := by
  intro r hr hid
  simp only [update_detection_paths, List.mem_map] at hr
  obtain ⟨r0, hr0, heq⟩ := hr
  by_cases h0 : r0.id = i
  · rw [if_pos h0] at heq
    rw [← heq] at hid
    exact absurd (h0 ▸ hid) hij
  · rw [if_neg h0] at heq
    rw [← heq] at hid ⊢
    exact h r0 hr0 hid

/-- Exact behaviour of `_process_single_detection` on a fully successful
item: no exception, passing validation, source found, audio generated, and a
row carrying the id present.  The item returns success, both path columns
are written (the spectrogram one only when enabled and rendered), and the
statistics gain one success and no error. -/
theorem process_single_good_eq (enableSpec : Bool)
    (fs : List Char → Option (List Char)) (eff : ItemEffects) (d : Detection)
    (db : List DBRow) (st : Stats)
    (hr : eff.raiseMsg = none)
    (hv : (validate_file_paths fs d).1 = true)
    (ha : eff.segGen.success = true)
    (hrow : ∃ r ∈ db, r.id = d.id) :
    process_single_detection enableSpec fs eff d db st =
      ((true, "処理完了 ".data ++ idTag d.id),
        (update_detection_paths db d.id (some eff.segGen.rel_path)
          (if enableSpec && eff.specGen.success then some eff.specGen.rel_path
           else none)).1,
        { processed_count := st.processed_count + 1,
          success_count := st.success_count + 1,
          audio_success := st.audio_success + 1,
          spectrogram_success := st.spectrogram_success +
            (if enableSpec && eff.specGen.success then 1 else 0),
          error_count := st.error_count,
          errors := st.errors }) := by
  obtain ⟨p, hfs⟩ := validate_true_findSource fs d hv
  have hupdN := (update_snd_iff db d.id (some eff.segGen.rel_path) none).mpr hrow
  have hupdS := (update_snd_iff db d.id (some eff.segGen.rel_path)
    (some eff.specGen.rel_path)).mpr hrow
  cases he : enableSpec <;> cases hs : eff.specGen.success <;>
    simp [process_single_detection, hr, hv, hfs, ha, hs, hupdN, hupdS]

/-- Exact behaviour of `_process_single_detection` when validation and
source lookup pass but audio generation fails: the update still runs and
writes NULL into both columns, and the item is recorded as an error. -/
theorem process_single_audiofail_eq (enableSpec : Bool)
    (fs : List Char → Option (List Char)) (eff : ItemEffects) (d : Detection)
    (db : List DBRow) (st : Stats)
    (hr : eff.raiseMsg = none)
    (hv : (validate_file_paths fs d).1 = true)
    (ha : eff.segGen.success = false)
    (hrow : ∃ r ∈ db, r.id = d.id) :
    process_single_detection enableSpec fs eff d db st =
      ((false, "音声セグメント生成失敗 ".data ++ idTag d.id),
        (update_detection_paths db d.id none none).1,
        { processed_count := st.processed_count + 1,
          success_count := st.success_count,
          audio_success := st.audio_success,
          spectrogram_success := st.spectrogram_success,
          error_count := st.error_count + 1,
          errors := st.errors ++
            ["音声セグメント生成失敗 ".data ++ idTag d.id] }) := by
  obtain ⟨p, hfs⟩ := validate_true_findSource fs d hv
  have hupd := (update_snd_iff db d.id none none).mpr hrow
  simp [process_single_detection, hr, hv, hfs, ha, hupd, recordError]

/-- Exact behaviour of `_process_single_detection` on an item whose source
audio file is missing (required fields present): validation fails, the
combined validation-error message — which carries the detection id — is
recorded, and the record store is untouched. -/
theorem process_single_missing_eq (enableSpec : Bool)
    (fs : List Char → Option (List Char)) (eff : ItemEffects) (d : Detection)
    (db : List DBRow) (st : Stats)
    (hr : eff.raiseMsg = none)
    (hreq : requiredFieldErrors d = [])
    (hfs : fs (d.filename.getD []) = none) :
    process_single_detection enableSpec fs eff d db st =
      ((false, "検証エラー ".data ++ idTag d.id ++ ": ".data ++
          joinSep "; ".data (validate_file_paths fs d).2),
        db,
        { processed_count := st.processed_count + 1,
          success_count := st.success_count,
          audio_success := st.audio_success,
          spectrogram_success := st.spectrogram_success,
          error_count := st.error_count + 1,
          errors := st.errors ++
            ["検証エラー ".data ++ idTag d.id ++ ": ".data ++
              joinSep "; ".data (validate_file_paths fs d).2] }) := by
  have hv1 : (validate_file_paths fs d).1 = false := by
    simp [validate_file_paths, hreq, hfs]
  simp [process_single_detection, hr, hv1, recordError]


theorem process_single_db_cases (enableSpec : Bool)
    (fs : List Char → Option (List Char)) (eff : ItemEffects) (d : Detection)
    (db : List DBRow) (st : Stats) :
    (process_single_detection enableSpec fs eff d db st).2.1 = db ∨
    ∃ ap sp, (process_single_detection enableSpec fs eff d db st).2.1 =
      (update_detection_paths db d.id ap sp).1 := by
  cases hraise : eff.raiseMsg with
  | some m => left; simp [process_single_detection, hraise]
  | none =>
    cases hb : (validate_file_paths fs d).1 with
    | false => left; simp [process_single_detection, hraise, hb]
    | true =>
      cases hfs : fs (d.filename.getD []) with
      | none => left; simp [process_single_detection, hraise, hb, hfs]
      | some p =>
        right
        cases ha : eff.segGen.success with
        | false =>
          refine ⟨none, none, ?_⟩
          by_cases hu : (update_detection_paths db d.id none none).2 = true <;>
            simp [process_single_detection, hraise, hb, hfs, ha, hu]
        | true =>
          cases hq : enableSpec && eff.specGen.success with
          | false =>
            refine ⟨some eff.segGen.rel_path, none, ?_⟩
            by_cases hu : (update_detection_paths db d.id
                (some eff.segGen.rel_path) none).2 = true <;>
              simp [process_single_detection, hraise, hb, hfs, ha, hq, hu]
          | true =>
            refine ⟨some eff.segGen.rel_path, some eff.specGen.rel_path, ?_⟩
            by_cases hu : (update_detection_paths db d.id
                (some eff.segGen.rel_path) (some eff.specGen.rel_path)).2 = true <;>
              simp [process_single_detection, hraise, hb, hfs, ha, hq, hu]

/-- Processing one item never changes which ids the record store holds. -/
theorem process_single_preserves_rowExists (enableSpec : Bool)
    (fs : List Char → Option (List Char)) (eff : ItemEffects) (d : Detection)
    (db : List DBRow) (st : Stats) (j : Int) :
    (∃ r ∈ (process_single_detection enableSpec fs eff d db st).2.1, r.id = j) ↔
      (∃ r ∈ db, r.id = j) := by
  rcases process_single_db_cases enableSpec fs eff d db st with h | ⟨ap, sp, h⟩
  · rw [h]
  · rw [h]
    exact update_preserves_rowExists db d.id ap sp j

/-- Processing one item leaves the audio path of every row keyed by a
different id unchanged. -/
theorem process_single_preserves_prop (enableSpec : Bool)
    (fs : List Char → Option (List Char)) (eff : ItemEffects) (d : Detection)
    (db : List DBRow) (st : Stats) (j : Int) (v : Option (List Char))
    (hij : d.id ≠ j)
    (h : ∀ r ∈ db, r.id = j → r.audio_segment_path = v) :
    ∀ r ∈ (process_single_detection enableSpec fs eff d db st).2.1, r.id = j →
      r.audio_segment_path = v := by
  rcases process_single_db_cases enableSpec fs eff d db st with hc | ⟨ap, sp, hc⟩
  · rw [hc]; exact h
  · rw [hc]
    exact update_preserves_prop db d.id ap sp j v hij h

/-- Claim C1: for a detection that passes validation, source lookup and
audio extraction, a disabled or failed spectrogram rendering is
non-terminal — the item still returns success and is counted in
`success_count` and not in `error_count`, the audio segment path is written
to the record store, and `spectrogram_path` is left NULL. -/
theorem spectrogram_failure_nonterminal (enableSpec : Bool)
    (fs : List Char → Option (List Char)) (eff : ItemEffects) (d : Detection)
    (db : List DBRow) (st : Stats)
    (hr : eff.raiseMsg = none)
    (hv : (validate_file_paths fs d).1 = true)
    (ha : eff.segGen.success = true)
    (hspec : enableSpec = false ∨ eff.specGen.success = false)
    (hrow : ∃ r ∈ db, r.id = d.id) :
    (process_single_detection enableSpec fs eff d db st).1.1 = true ∧
    (process_single_detection enableSpec fs eff d db st).2.2.success_count =
      st.success_count + 1 ∧
    (process_single_detection enableSpec fs eff d db st).2.2.error_count =
      st.error_count ∧
    (∀ r ∈ (process_single_detection enableSpec fs eff d db st).2.1,
      r.id = d.id →
        r.audio_segment_path = some eff.segGen.rel_path ∧
        r.spectrogram_path = none) := by
  have heq := process_single_good_eq enableSpec fs eff d db st hr hv ha hrow
  have hq : (enableSpec && eff.specGen.success) = false := by
    rcases hspec with h | h <;> simp [h]
  rw [heq, hq]
  refine ⟨rfl, rfl, rfl, ?_⟩
  simp only [if_false]
  exact update_sets_row db d.id (some eff.segGen.rel_path) none

/-- Witness for C1: a concrete detection processed with spectrogram
rendering enabled but failing; the item succeeds, the audio path is
persisted and the spectrogram column stays NULL. -/
theorem spectrogram_failure_nonterminal_witness :
    (process_single_detection true (fun _ => some "src.wav".data)
        { segGen := { success := true, rel_path := "audio_segments/s/a.wav".data },
          specGen := { success := false, rel_path := [] }, raiseMsg := none }
        { id := 5, filename := some "f".data, session_name := some "s".data,
          start_time_seconds := some (.num 10), end_time_seconds := some (.num 12),
          common_name := some "Bird".data, confidence := 1 }
        [{ id := 5, audio_segment_path := none, spectrogram_path := none }]
        initStats).1.1 = true ∧
    (process_single_detection true (fun _ => some "src.wav".data)
        { segGen := { success := true, rel_path := "audio_segments/s/a.wav".data },
          specGen := { success := false, rel_path := [] }, raiseMsg := none }
        { id := 5, filename := some "f".data, session_name := some "s".data,
          start_time_seconds := some (.num 10), end_time_seconds := some (.num 12),
          common_name := some "Bird".data, confidence := 1 }
        [{ id := 5, audio_segment_path := none, spectrogram_path := none }]
        initStats).2.2.success_count = initStats.success_count + 1 ∧
    (process_single_detection true (fun _ => some "src.wav".data)
        { segGen := { success := true, rel_path := "audio_segments/s/a.wav".data },
          specGen := { success := false, rel_path := [] }, raiseMsg := none }
        { id := 5, filename := some "f".data, session_name := some "s".data,
          start_time_seconds := some (.num 10), end_time_seconds := some (.num 12),
          common_name := some "Bird".data, confidence := 1 }
        [{ id := 5, audio_segment_path := none, spectrogram_path := none }]
        initStats).2.2.error_count = initStats.error_count ∧
    (∀ r ∈ (process_single_detection true (fun _ => some "src.wav".data)
        { segGen := { success := true, rel_path := "audio_segments/s/a.wav".data },
          specGen := { success := false, rel_path := [] }, raiseMsg := none }
        { id := 5, filename := some "f".data, session_name := some "s".data,
          start_time_seconds := some (.num 10), end_time_seconds := some (.num 12),
          common_name := some "Bird".data, confidence := 1 }
        [{ id := 5, audio_segment_path := none, spectrogram_path := none }]
        initStats).2.1,
      r.id = (5 : Int) →
        r.audio_segment_path = some "audio_segments/s/a.wav".data ∧
        r.spectrogram_path = none) :=
  spectrogram_failure_nonterminal true (fun _ => some "src.wav".data)
    { segGen := { success := true, rel_path := "audio_segments/s/a.wav".data },
      specGen := { success := false, rel_path := [] }, raiseMsg := none }
    { id := 5, filename := some "f".data, session_name := some "s".data,
      start_time_seconds := some (.num 10), end_time_seconds := some (.num 12),
      common_name := some "Bird".data, confidence := 1 }
    [{ id := 5, audio_segment_path := none, spectrogram_path := none }]
    initStats rfl (by decide) rfl (Or.inr rfl)
    ⟨{ id := 5, audio_segment_path := none, spectrogram_path := none },
      by decide, rfl⟩

/-- Claim C5: for an item that passed validation (and hence source lookup),
the per-item result is success exactly when the audio extraction succeeded
AND the persist step matched at least one row with the detection id; with no
matching row the item is a terminal failure even when extraction
succeeded. -/
theorem success_iff_audio_and_persist (enableSpec : Bool)
    (fs : List Char → Option (List Char)) (eff : ItemEffects) (d : Detection)
    (db : List DBRow) (st : Stats)
    (hr : eff.raiseMsg = none)
    (hv : (validate_file_paths fs d).1 = true) :
    (process_single_detection enableSpec fs eff d db st).1.1 = true ↔
      (eff.segGen.success = true ∧ ∃ r ∈ db, r.id = d.id) := by
  by_cases hrow : ∃ r ∈ db, r.id = d.id
  · cases ha : eff.segGen.success with
    | true =>
      rw [process_single_good_eq enableSpec fs eff d db st hr hv ha hrow]
      simp [hrow]
    | false =>
      rw [process_single_audiofail_eq enableSpec fs eff d db st hr hv ha hrow]
      simp
  · obtain ⟨p, hfs⟩ := validate_true_findSource fs d hv
    have hu : ∀ ap sp, (update_detection_paths db d.id ap sp).2 = false := by
      intro ap sp
      cases hb : (update_detection_paths db d.id ap sp).2 with
      | false => rfl
      | true => exact absurd ((update_snd_iff db d.id ap sp).mp hb) hrow
    simp [process_single_detection, hr, hv, hfs, hu, hrow]

/-- Witness for C5 in both directions: with a matching row and successful
extraction the item succeeds; with the row absent the same item fails. -/
theorem success_iff_audio_and_persist_witness :
    (process_single_detection false (fun _ => some "src.wav".data)
        { segGen := { success := true, rel_path := "audio_segments/s/a.wav".data },
          specGen := { success := false, rel_path := [] }, raiseMsg := none }
        { id := 5, filename := some "f".data, session_name := some "s".data,
          start_time_seconds := some (.num 10), end_time_seconds := some (.num 12),
          common_name := some "Bird".data, confidence := 1 }
        [{ id := 5, audio_segment_path := none, spectrogram_path := none }]
        initStats).1.1 = true ∧
    ¬ (process_single_detection false (fun _ => some "src.wav".data)
        { segGen := { success := true, rel_path := "audio_segments/s/a.wav".data },
          specGen := { success := false, rel_path := [] }, raiseMsg := none }
        { id := 5, filename := some "f".data, session_name := some "s".data,
          start_time_seconds := some (.num 10), end_time_seconds := some (.num 12),
          common_name := some "Bird".data, confidence := 1 }
        ([] : List DBRow) initStats).1.1 = true := by
  constructor
  · exact (success_iff_audio_and_persist false (fun _ => some "src.wav".data)
      { segGen := { success := true, rel_path := "audio_segments/s/a.wav".data },
        specGen := { success := false, rel_path := [] }, raiseMsg := none }
      { id := 5, filename := some "f".data, session_name := some "s".data,
        start_time_seconds := some (.num 10), end_time_seconds := some (.num 12),
        common_name := some "Bird".data, confidence := 1 }
      [{ id := 5, audio_segment_path := none, spectrogram_path := none }]
      initStats rfl (by decide)).mpr
      ⟨rfl, { id := 5, audio_segment_path := none, spectrogram_path := none },
        by decide, rfl⟩
  · intro h
    have := (success_iff_audio_and_persist false (fun _ => some "src.wav".data)
      { segGen := { success := true, rel_path := "audio_segments/s/a.wav".data },
        specGen := { success := false, rel_path := [] }, raiseMsg := none }
      { id := 5, filename := some "f".data, session_name := some "s".data,
        start_time_seconds := some (.num 10), end_time_seconds := some (.num 12),
        common_name := some "Bird".data, confidence := 1 }
      ([] : List DBRow) initStats rfl (by decide)).mp h
    simp at this

/-- Claim C6 (implicit): when audio extraction fails for a detection that
passed validation and source lookup, the database update still runs and
writes NULL into both path columns for that id — a previously non-null
`audio_segment_path` is overwritten with NULL rather than left unchanged —
and the item is recorded as an error. -/
theorem extraction_failure_overwrites_paths (enableSpec : Bool)
    (fs : List Char → Option (List Char)) (eff : ItemEffects) (d : Detection)
    (db : List DBRow) (st : Stats)
    (hr : eff.raiseMsg = none)
    (hv : (validate_file_paths fs d).1 = true)
    (ha : eff.segGen.success = false)
    (hrow : ∃ r ∈ db, r.id = d.id) :
    (process_single_detection enableSpec fs eff d db st).1.1 = false ∧
    (process_single_detection enableSpec fs eff d db st).2.2.error_count =
      st.error_count + 1 ∧
    (∀ r ∈ (process_single_detection enableSpec fs eff d db st).2.1,
      r.id = d.id →
        r.audio_segment_path = none ∧ r.spectrogram_path = none) := by
  rw [process_single_audiofail_eq enableSpec fs eff d db st hr hv ha hrow]
  exact ⟨rfl, rfl, update_sets_row db d.id none none⟩

/-- Witness for C6: re-running on an already-processed row (non-null audio
path) whose extraction now fails overwrites the stored path with NULL. -/
theorem extraction_failure_overwrites_paths_witness :
    (process_single_detection true (fun _ => some "src.wav".data)
        { segGen := { success := false, rel_path := [] },
          specGen := { success := true, rel_path := "spectrograms/s/a.png".data },
          raiseMsg := none }
        { id := 9, filename := some "f".data, session_name := some "s".data,
          start_time_seconds := some (.num 10), end_time_seconds := some (.num 12),
          common_name := some "Bird".data, confidence := 1 }
        [{ id := 9, audio_segment_path := some "audio_segments/s/old.wav".data,
           spectrogram_path := some "spectrograms/s/old.png".data }]
        initStats).1.1 = false ∧
    (process_single_detection true (fun _ => some "src.wav".data)
        { segGen := { success := false, rel_path := [] },
          specGen := { success := true, rel_path := "spectrograms/s/a.png".data },
          raiseMsg := none }
        { id := 9, filename := some "f".data, session_name := some "s".data,
          start_time_seconds := some (.num 10), end_time_seconds := some (.num 12),
          common_name := some "Bird".data, confidence := 1 }
        [{ id := 9, audio_segment_path := some "audio_segments/s/old.wav".data,
           spectrogram_path := some "spectrograms/s/old.png".data }]
        initStats).2.2.error_count = initStats.error_count + 1 ∧
    (∀ r ∈ (process_single_detection true (fun _ => some "src.wav".data)
        { segGen := { success := false, rel_path := [] },
          specGen := { success := true, rel_path := "spectrograms/s/a.png".data },
          raiseMsg := none }
        { id := 9, filename := some "f".data, session_name := some "s".data,
          start_time_seconds := some (.num 10), end_time_seconds := some (.num 12),
          common_name := some "Bird".data, confidence := 1 }
        [{ id := 9, audio_segment_path := some "audio_segments/s/old.wav".data,
           spectrogram_path := some "spectrograms/s/old.png".data }]
        initStats).2.1,
      r.id = (9 : Int) →
        r.audio_segment_path = none ∧ r.spectrogram_path = none) :=
  extraction_failure_overwrites_paths true (fun _ => some "src.wav".data)
    { segGen := { success := false, rel_path := [] },
      specGen := { success := true, rel_path := "spectrograms/s/a.png".data },
      raiseMsg := none }
    { id := 9, filename := some "f".data, session_name := some "s".data,
      start_time_seconds := some (.num 10), end_time_seconds := some (.num 12),
      common_name := some "Bird".data, confidence := 1 }
    [{ id := 9, audio_segment_path := some "audio_segments/s/old.wav".data,
       spectrogram_path := some "spectrograms/s/old.png".data }]
    initStats rfl (by decide) rfl
    ⟨{ id := 9, audio_segment_path := some "audio_segments/s/old.wav".data,
       spectrogram_path := some "spectrograms/s/old.png".data }, by decide, rfl⟩

/-- One step of the bulk fold. -/
theorem process_all_cons (enableSpec : Bool)
    (fs : List Char → Option (List Char)) (a : Detection × ItemEffects)
    (t : List (Detection × ItemEffects)) (db : List DBRow) (st : Stats) :
    process_all_pending_detections enableSpec fs (a :: t) db st =
      process_all_pending_detections enableSpec fs t
        (process_single_detection enableSpec fs a.2 a.1 db st).2.1
        (process_single_detection enableSpec fs a.2 a.1 db st).2.2 := rfl

/-- A bulk run over fully successful items: every item is processed and
succeeds, no error is recorded, and the set of ids present in the store is
unchanged. -/
theorem foldl_good_run (enableSpec : Bool)
    (fs : List Char → Option (List Char)) :
    ∀ (L : List (Detection × ItemEffects)) (db : List DBRow) (st : Stats),
      (∀ it ∈ L, GoodItem fs it) →
      (∀ it ∈ L, ∃ r ∈ db, r.id = it.1.id) →
      (process_all_pending_detections enableSpec fs L db st).2.processed_count =
          st.processed_count + L.length ∧
      (process_all_pending_detections enableSpec fs L db st).2.success_count =
          st.success_count + L.length ∧
      (process_all_pending_detections enableSpec fs L db st).2.error_count =
          st.error_count ∧
      (process_all_pending_detections enableSpec fs L db st).2.errors = st.errors ∧
      ∀ j : Int,
        (∃ r ∈ (process_all_pending_detections enableSpec fs L db st).1, r.id = j) ↔
          ∃ r ∈ db, r.id = j := by
  intro L
  induction L with
  | nil =>
    intro db st _ _
    exact ⟨rfl, rfl, rfl, rfl, fun j => Iff.rfl⟩
  | cons a t ih =>
    intro db st hL hrows
    obtain ⟨hrm, hv, haud⟩ := hL a (List.mem_cons_self a t)
    have hrowa := hrows a (List.mem_cons_self a t)
    have heq := process_single_good_eq enableSpec fs a.2 a.1 db st hrm hv haud hrowa
    rw [process_all_cons, heq]
    dsimp only
    obtain ⟨h1, h2, h3, h4, h5⟩ := ih
      (update_detection_paths db a.1.id (some a.2.segGen.rel_path)
        (if enableSpec && a.2.specGen.success then some a.2.specGen.rel_path
         else none)).1
      { processed_count := st.processed_count + 1,
        success_count := st.success_count + 1,
        audio_success := st.audio_success + 1,
        spectrogram_success := st.spectrogram_success +
          (if enableSpec && a.2.specGen.success then 1 else 0),
        error_count := st.error_count, errors := st.errors }
      (fun it hit => hL it (List.mem_cons_of_mem a hit))
      (fun it hit => (update_preserves_rowExists db a.1.id _ _ it.1.id).mpr
        (hrows it (List.mem_cons_of_mem a hit)))
    dsimp only at h1 h2 h3 h4
    refine ⟨?_, ?_, ?_, ?_, ?_⟩
    · simp only [List.length_cons]
      omega
    · simp only [List.length_cons]
      omega
    · exact h3
    · exact h4
    · intro j
      exact (h5 j).trans (update_preserves_rowExists db a.1.id _ _ j)

/-- A bulk run never touches the audio path of rows keyed by an id that
belongs to none of the processed items. -/
theorem foldl_preserves_prop (enableSpec : Bool)
    (fs : List Char → Option (List Char)) :
    ∀ (L : List (Detection × ItemEffects)) (db : List DBRow) (st : Stats)
      (j : Int) (v : Option (List Char)),
      (∀ it ∈ L, it.1.id ≠ j) →
      (∀ r ∈ db, r.id = j → r.audio_segment_path = v) →
      ∀ r ∈ (process_all_pending_detections enableSpec fs L db st).1, r.id = j →
        r.audio_segment_path = v := by
  intro L
  induction L with
  | nil => intro db st j v _ h; exact h
  | cons a t ih =>
    intro db st j v hids h
    rw [process_all_cons]
    exact ih _ _ j v (fun it hit => hids it (List.mem_cons_of_mem a hit))
      (process_single_preserves_prop enableSpec fs a.2 a.1 db st j v
        (hids a (List.mem_cons_self a t)) h)

/-- After a bulk run over fully successful items with pairwise distinct ids,
every processed item's row carries that item's generated audio path. -/
theorem foldl_good_persist (enableSpec : Bool)
    (fs : List Char → Option (List Char)) :
    ∀ (L : List (Detection × ItemEffects)) (db : List DBRow) (st : Stats),
      (∀ it ∈ L, GoodItem fs it) →
      (∀ it ∈ L, ∃ r ∈ db, r.id = it.1.id) →
      (L.map (fun it => it.1.id)).Nodup →
      ∀ it ∈ L, ∀ r ∈ (process_all_pending_detections enableSpec fs L db st).1,
        r.id = it.1.id → r.audio_segment_path = some it.2.segGen.rel_path := by
  intro L
  induction L with
  | nil => intro db st _ _ _ it hit; exact absurd hit (List.not_mem_nil it)
  | cons a t ih =>
    intro db st hL hrows hnodup it hit
    have hnodup' : a.1.id ∉ t.map (fun x => x.1.id) ∧
        (t.map (fun x => x.1.id)).Nodup := by
      rw [List.map_cons, List.nodup_cons] at hnodup
      exact hnodup
    obtain ⟨hrm, hv, haud⟩ := hL a (List.mem_cons_self a t)
    have hrowa := hrows a (List.mem_cons_self a t)
    have heq := process_single_good_eq enableSpec fs a.2 a.1 db st hrm hv haud hrowa
    rw [process_all_cons, heq]
    dsimp only
    rcases List.mem_cons.mp hit with rfl | hit'
    · apply foldl_preserves_prop enableSpec fs t _ _ it.1.id
        (some it.2.segGen.rel_path)
      · intro it2 hit2 hcontra
        exact hnodup'.1 (hcontra ▸ List.mem_map_of_mem (fun x => x.1.id) hit2)
      · intro r hr hid
        exact (update_sets_row db it.1.id _ _ r hr hid).1
    · exact ih _ _ (fun x hx => hL x (List.mem_cons_of_mem a hx))
        (fun x hx => (update_preserves_rowExists db a.1.id _ _ x.1.id).mpr
          (hrows x (List.mem_cons_of_mem a hx)))
        hnodup'.2 it hit'

/-- Claim C2: batch isolation.  For a pending list `pre ++ bad :: post`
where `bad`'s source audio file is missing and every other item is valid
(and each good item has a row in the store, with the post-items' ids
pairwise distinct), the bulk run processes every item — the failing item
does not terminate the run — and yields exactly `|pre| + |post|` successes,
exactly one recorded error whose message carries the bad item's detection id
(via the `(ID:...)` tag), and every item after the failure is still
processed and its audio path persisted to its row. -/
theorem batch_isolation (enableSpec : Bool)
    (fs : List Char → Option (List Char))
    (pre post : List (Detection × ItemEffects)) (bad : Detection × ItemEffects)
    (db : List DBRow) (st : Stats)
    (hpre : ∀ it ∈ pre, GoodItem fs it)
    (hpost : ∀ it ∈ post, GoodItem fs it)
    (hbad : MissingSourceItem fs bad)
    (hrows : ∀ it ∈ pre ++ post, ∃ r ∈ db, r.id = it.1.id)
    (hnodup : (post.map (fun it => it.1.id)).Nodup) :
    (process_all_pending_detections enableSpec fs (pre ++ bad :: post) db st).2.processed_count =
      st.processed_count + (pre.length + 1 + post.length) ∧
    (process_all_pending_detections enableSpec fs (pre ++ bad :: post) db st).2.success_count =
      st.success_count + (pre.length + post.length) ∧
    (process_all_pending_detections enableSpec fs (pre ++ bad :: post) db st).2.error_count =
      st.error_count + 1 ∧
    (process_all_pending_detections enableSpec fs (pre ++ bad :: post) db st).2.errors =
      st.errors ++ ["検証エラー ".data ++ idTag bad.1.id ++ ": ".data ++
        joinSep "; ".data (validate_file_paths fs bad.1).2] ∧
    (∀ it ∈ post,
      ∀ r ∈ (process_all_pending_detections enableSpec fs (pre ++ bad :: post) db st).1,
        r.id = it.1.id → r.audio_segment_path = some it.2.segGen.rel_path) := by
  obtain ⟨hbr, hbreq, hbfs⟩ := hbad
  have hsplit : process_all_pending_detections enableSpec fs (pre ++ bad :: post) db st =
      process_all_pending_detections enableSpec fs (bad :: post)
        (process_all_pending_detections enableSpec fs pre db st).1
        (process_all_pending_detections enableSpec fs pre db st).2 := by
    simp [process_all_pending_detections, List.foldl_append]
  obtain ⟨p1, p2, p3, p4, p5⟩ := foldl_good_run enableSpec fs pre db st hpre
    (fun it hit => hrows it (List.mem_append_left post hit))
  have hbadeq := process_single_missing_eq enableSpec fs bad.2 bad.1
    (process_all_pending_detections enableSpec fs pre db st).1
    (process_all_pending_detections enableSpec fs pre db st).2 hbr hbreq hbfs
  have hrowspost : ∀ it ∈ post,
      ∃ r ∈ (process_all_pending_detections enableSpec fs pre db st).1,
        r.id = it.1.id :=
    fun it hit => (p5 it.1.id).mpr (hrows it (List.mem_append_right pre hit))
  rw [hsplit, process_all_cons, hbadeq]
  dsimp only
  obtain ⟨q1, q2, q3, q4, q5⟩ := foldl_good_run enableSpec fs post
    (process_all_pending_detections enableSpec fs pre db st).1
    { processed_count :=
        (process_all_pending_detections enableSpec fs pre db st).2.processed_count + 1,
      success_count :=
        (process_all_pending_detections enableSpec fs pre db st).2.success_count,
      audio_success :=
        (process_all_pending_detections enableSpec fs pre db st).2.audio_success,
      spectrogram_success :=
        (process_all_pending_detections enableSpec fs pre db st).2.spectrogram_success,
      error_count :=
        (process_all_pending_detections enableSpec fs pre db st).2.error_count + 1,
      errors :=
        (process_all_pending_detections enableSpec fs pre db st).2.errors ++
          ["検証エラー ".data ++ idTag bad.1.id ++ ": ".data ++
            joinSep "; ".data (validate_file_paths fs bad.1).2] }
    hpost hrowspost
  have hpersist := foldl_good_persist enableSpec fs post
    (process_all_pending_detections enableSpec fs pre db st).1
    { processed_count :=
        (process_all_pending_detections enableSpec fs pre db st).2.processed_count + 1,
      success_count :=
        (process_all_pending_detections enableSpec fs pre db st).2.success_count,
      audio_success :=
        (process_all_pending_detections enableSpec fs pre db st).2.audio_success,
      spectrogram_success :=
        (process_all_pending_detections enableSpec fs pre db st).2.spectrogram_success,
      error_count :=
        (process_all_pending_detections enableSpec fs pre db st).2.error_count + 1,
      errors :=
        (process_all_pending_detections enableSpec fs pre db st).2.errors ++
          ["検証エラー ".data ++ idTag bad.1.id ++ ": ".data ++
            joinSep "; ".data (validate_file_paths fs bad.1).2] }
    hpost hrowspost hnodup
  dsimp only at q1 q2 q3 q4
  refine ⟨?_, ?_, ?_, ?_, hpersist⟩
  · omega
  · omega
  · omega
  · rw [q4, p4]

/-- Witness for C2: a concrete three-item batch (good, missing-source, good)
over a three-row store processes all three items, records two successes and
exactly one error — the middle item's validation message — and does not stop
at the failure. -/
theorem batch_isolation_witness :
    (process_all_pending_detections false
        (fun s => if s = "missing".data then none else some "src.wav".data)
        [({ id := 1, filename := some "f1".data, session_name := some "s".data,
            start_time_seconds := some (.num 10), end_time_seconds := some (.num 12),
            common_name := none, confidence := 1 },
          { segGen := { success := true, rel_path := "audio_segments/s/a1.wav".data },
            specGen := { success := false, rel_path := [] }, raiseMsg := none }),
         ({ id := 2, filename := some "missing".data, session_name := some "s".data,
            start_time_seconds := some (.num 10), end_time_seconds := some (.num 12),
            common_name := none, confidence := 1 },
          { segGen := { success := true, rel_path := "audio_segments/s/a2.wav".data },
            specGen := { success := false, rel_path := [] }, raiseMsg := none }),
         ({ id := 3, filename := some "f3".data, session_name := some "s".data,
            start_time_seconds := some (.num 10), end_time_seconds := some (.num 12),
            common_name := none, confidence := 1 },
          { segGen := { success := true, rel_path := "audio_segments/s/a3.wav".data },
            specGen := { success := false, rel_path := [] }, raiseMsg := none })]
        [{ id := 1, audio_segment_path := none, spectrogram_path := none },
         { id := 2, audio_segment_path := none, spectrogram_path := none },
         { id := 3, audio_segment_path := none, spectrogram_path := none }]
        initStats).2.processed_count = 3 ∧
    (process_all_pending_detections false
        (fun s => if s = "missing".data then none else some "src.wav".data)
        [({ id := 1, filename := some "f1".data, session_name := some "s".data,
            start_time_seconds := some (.num 10), end_time_seconds := some (.num 12),
            common_name := none, confidence := 1 },
          { segGen := { success := true, rel_path := "audio_segments/s/a1.wav".data },
            specGen := { success := false, rel_path := [] }, raiseMsg := none }),
         ({ id := 2, filename := some "missing".data, session_name := some "s".data,
            start_time_seconds := some (.num 10), end_time_seconds := some (.num 12),
            common_name := none, confidence := 1 },
          { segGen := { success := true, rel_path := "audio_segments/s/a2.wav".data },
            specGen := { success := false, rel_path := [] }, raiseMsg := none }),
         ({ id := 3, filename := some "f3".data, session_name := some "s".data,
            start_time_seconds := some (.num 10), end_time_seconds := some (.num 12),
            common_name := none, confidence := 1 },
          { segGen := { success := true, rel_path := "audio_segments/s/a3.wav".data },
            specGen := { success := false, rel_path := [] }, raiseMsg := none })]
        [{ id := 1, audio_segment_path := none, spectrogram_path := none },
         { id := 2, audio_segment_path := none, spectrogram_path := none },
         { id := 3, audio_segment_path := none, spectrogram_path := none }]
        initStats).2.success_count = 2 ∧
    (process_all_pending_detections false
        (fun s => if s = "missing".data then none else some "src.wav".data)
        [({ id := 1, filename := some "f1".data, session_name := some "s".data,
            start_time_seconds := some (.num 10), end_time_seconds := some (.num 12),
            common_name := none, confidence := 1 },
          { segGen := { success := true, rel_path := "audio_segments/s/a1.wav".data },
            specGen := { success := false, rel_path := [] }, raiseMsg := none }),
         ({ id := 2, filename := some "missing".data, session_name := some "s".data,
            start_time_seconds := some (.num 10), end_time_seconds := some (.num 12),
            common_name := none, confidence := 1 },
          { segGen := { success := true, rel_path := "audio_segments/s/a2.wav".data },
            specGen := { success := false, rel_path := [] }, raiseMsg := none }),
         ({ id := 3, filename := some "f3".data, session_name := some "s".data,
            start_time_seconds := some (.num 10), end_time_seconds := some (.num 12),
            common_name := none, confidence := 1 },
          { segGen := { success := true, rel_path := "audio_segments/s/a3.wav".data },
            specGen := { success := false, rel_path := [] }, raiseMsg := none })]
        [{ id := 1, audio_segment_path := none, spectrogram_path := none },
         { id := 2, audio_segment_path := none, spectrogram_path := none },
         { id := 3, audio_segment_path := none, spectrogram_path := none }]
        initStats).2.error_count = 1 ∧
    (process_all_pending_detections false
        (fun s => if s = "missing".data then none else some "src.wav".data)
        [({ id := 1, filename := some "f1".data, session_name := some "s".data,
            start_time_seconds := some (.num 10), end_time_seconds := some (.num 12),
            common_name := none, confidence := 1 },
          { segGen := { success := true, rel_path := "audio_segments/s/a1.wav".data },
            specGen := { success := false, rel_path := [] }, raiseMsg := none }),
         ({ id := 2, filename := some "missing".data, session_name := some "s".data,
            start_time_seconds := some (.num 10), end_time_seconds := some (.num 12),
            common_name := none, confidence := 1 },
          { segGen := { success := true, rel_path := "audio_segments/s/a2.wav".data },
            specGen := { success := false, rel_path := [] }, raiseMsg := none }),
         ({ id := 3, filename := some "f3".data, session_name := some "s".data,
            start_time_seconds := some (.num 10), end_time_seconds := some (.num 12),
            common_name := none, confidence := 1 },
          { segGen := { success := true, rel_path := "audio_segments/s/a3.wav".data },
            specGen := { success := false, rel_path := [] }, raiseMsg := none })]
        [{ id := 1, audio_segment_path := none, spectrogram_path := none },
         { id := 2, audio_segment_path := none, spectrogram_path := none },
         { id := 3, audio_segment_path := none, spectrogram_path := none }]
        initStats).2.errors =
      ["検証エラー ".data ++ idTag 2 ++ ": ".data ++
        joinSep "; ".data (validate_file_paths
          (fun s => if s = "missing".data then none else some "src.wav".data)
          { id := 2, filename := some "missing".data, session_name := some "s".data,
            start_time_seconds := some (.num 10), end_time_seconds := some (.num 12),
            common_name := none, confidence := 1 }).2] := by
  obtain ⟨h1, h2, h3, h4, _⟩ := batch_isolation false
    (fun s => if s = "missing".data then none else some "src.wav".data)
    [({ id := 1, filename := some "f1".data, session_name := some "s".data,
        start_time_seconds := some (.num 10), end_time_seconds := some (.num 12),
        common_name := none, confidence := 1 },
      { segGen := { success := true, rel_path := "audio_segments/s/a1.wav".data },
        specGen := { success := false, rel_path := [] }, raiseMsg := none })]
    [({ id := 3, filename := some "f3".data, session_name := some "s".data,
        start_time_seconds := some (.num 10), end_time_seconds := some (.num 12),
        common_name := none, confidence := 1 },
      { segGen := { success := true, rel_path := "audio_segments/s/a3.wav".data },
        specGen := { success := false, rel_path := [] }, raiseMsg := none })]
    ({ id := 2, filename := some "missing".data, session_name := some "s".data,
       start_time_seconds := some (.num 10), end_time_seconds := some (.num 12),
       common_name := none, confidence := 1 },
     { segGen := { success := true, rel_path := "audio_segments/s/a2.wav".data },
       specGen := { success := false, rel_path := [] }, raiseMsg := none })
    [{ id := 1, audio_segment_path := none, spectrogram_path := none },
     { id := 2, audio_segment_path := none, spectrogram_path := none },
     { id := 3, audio_segment_path := none, spectrogram_path := none }]
    initStats
    (by
      intro it hit
      rw [List.mem_singleton] at hit
      subst hit
      exact ⟨rfl, by decide, rfl⟩)
    (by
      intro it hit
      rw [List.mem_singleton] at hit
      subst hit
      exact ⟨rfl, by decide, rfl⟩)
    ⟨rfl, by decide, by decide⟩
    (by
      intro it hit
      rcases List.mem_append.mp hit with hit1 | hit2
      · rw [List.mem_singleton] at hit1
        subst hit1
        exact ⟨{ id := 1, audio_segment_path := none, spectrogram_path := none },
          by decide, rfl⟩
      · rw [List.mem_singleton] at hit2
        subst hit2
        exact ⟨{ id := 3, audio_segment_path := none, spectrogram_path := none },
          by decide, rfl⟩)
    (by decide)
  exact ⟨h1, h2, h3, h4⟩
